import Mathlib

/-!
Verification of the w3af JS event crawler
(`w3af/core/controllers/chrome/crawler/js.py`, class `ChromeCrawlerJS`).

The Python source is shallowly embedded below: the class constants, the
event dispatch log, the admission filter `_should_dispatch_event`, the
side-effect classifier `_handle_event_dispatch_side_effects`, the
dispatcher `_dispatch_event`, the fingerprint cache
`_cached_get_xml_bones`, and the state exploration loops
(`_crawl_one_state`, `_crawl_all_states`, `crawl`).

Mutable object state becomes explicit state passing on `CrawlerJS`;
Python exceptions become `Except` results that still carry the state at
the raise point (as a Python object survives an exception raised in one
of its methods).  The browser automation layer (`InstrumentedChrome`),
the bones extraction function `get_xml_bones`, the fuzzy string
comparator `fuzzy_equal` and the third-party `SynchronizedLRUDict` are
external collaborators: the browser is modelled as an abstract record of
operations, the others from their contract in the specification.
-/

/-! ## Class constants of `ChromeCrawlerJS` -/

/-- `EVENTS_TO_DISPATCH = {'click', 'dblclick'}` from the source. -/
def EVENTS_TO_DISPATCH : List String := ["click", "dblclick"]

/-- `MAX_PAGE_RELOAD = 50` from the source. -/
def MAX_PAGE_RELOAD : Nat := 50

/-- `EQUAL_RATIO_AFTER_BACK = 0.9` from the source, as the rational
`9/10` (written with `mkRat` so that it evaluates). -/
def EQUAL_RATIO_AFTER_BACK : ℚ := mkRat 9 10

/-- `MAX_CONSECUTIVE_EVENT_DISPATCH_ERRORS = 10` from the source. -/
def MAX_CONSECUTIVE_EVENT_DISPATCH_ERRORS : Nat := 10

/-- `MAX_INITIAL_STATES = 3` from the source. -/
def MAX_INITIAL_STATES : Nat := 3

/-! ## Events and the dispatch log -/

/-- An event reported by the browser collaborator.  The source reads
`event['selector']` and `event['event_type']`; any further fields are
opaque to the crawler and omitted. -/
structure Event where
  selector : String
  event_type : String
deriving DecidableEq, Repr

/-- `event.get_type_selector()`: the identity key of an event, the pair
of its type and its CSS selector. -/
def Event.get_type_selector (event : Event) : String × String :=
  (event.event_type, event.selector)

/-- The three outcome states of `EventDispatchLogUnit`
(`IGNORED = 0`, `SUCCESS = 1`, `FAILED = 2`). -/
inductive DispatchState
  | IGNORED
  | SUCCESS
  | FAILED
deriving DecidableEq, Repr

/-- One entry of the event dispatch log (`EventDispatchLogUnit`). -/
structure EventDispatchLogUnit where
  event : Event
  state : DispatchState
deriving DecidableEq, Repr

/-! ## Admission filter: `_should_dispatch_event` -/

/-- `_ignore_event(event)`: append an `IGNORED` entry for `event` to the
dispatch log. -/
def ignore_event (log : List EventDispatchLogUnit) (event : Event) :
    List EventDispatchLogUnit :=
  log ++ [⟨event, DispatchState.IGNORED⟩]

/-- The `for event_dispatch_log_unit in self._event_dispatch_log` loop of
`_should_dispatch_event`: walk the log, skip entries whose type-selector
key differs, and decide on the first entry whose key matches
(`FAILED` → retry, anything else → ignore).  `log_all` is the full log
used for the `IGNORED` append. -/
def should_dispatch_loop (log_all : List EventDispatchLogUnit) (event : Event)
    (key : String × String) :
    List EventDispatchLogUnit → Bool × List EventDispatchLogUnit
  | [] => (true, log_all)
  | u :: rest =>
    if u.event.get_type_selector ≠ key then
      should_dispatch_loop log_all event key rest
    else if u.state = DispatchState.FAILED then
      (true, log_all)
    else
      (false, ignore_event log_all event)

/-- `_should_dispatch_event(event)`: returns the decision together with
the (possibly extended) dispatch log. -/
def should_dispatch_event (log : List EventDispatchLogUnit) (event : Event) :
    Bool × List EventDispatchLogUnit :=
  if event.event_type ∈ EVENTS_TO_DISPATCH then
    should_dispatch_loop log event event.get_type_selector log
  else
    (false, ignore_event log event)

/-- The state of the first log entry whose type-selector key matches
`key`, if any.  This is the entry the scan of `_should_dispatch_event`
decides on. -/
def first_matching_state (key : String × String) :
    List EventDispatchLogUnit → Option DispatchState
  | [] => none
  | u :: rest =>
    if u.event.get_type_selector = key then some u.state
    else first_matching_state key rest

/-! ## Fuzzy fingerprint comparison -/

/-- Modelled from the spec: `fuzzy_equal` lives in
`w3af.core.controllers.misc.fuzzy_string_cmp`, which is not under `src/`;
the spec pins its contract to "two fingerprints with similarity >= 0.9
are treated equal; < 0.9 are treated as a new state", with the boundary
case treated as equal.  The similarity measure itself stays abstract. -/
def fuzzy_equal (similarity : String → String → ℚ)
    (a b : String) (threshold : ℚ) : Bool :=
  decide (threshold ≤ similarity a b)

/-- `_bones_xml_are_equal(a, b)`: fuzzy comparison at the fixed ratio
`EQUAL_RATIO_AFTER_BACK`. -/
def bones_xml_are_equal (similarity : String → String → ℚ)
    (bones_xml_a bones_xml_b : String) : Bool :=
  fuzzy_equal similarity bones_xml_a bones_xml_b EQUAL_RATIO_AFTER_BACK

/-! ## Side-effect classifier verdicts -/

/-- The three verdicts of `_handle_event_dispatch_side_effects`
(`NEW_STATE_FOUND = 0`, `TOO_MANY_PAGE_RELOAD = 1`,
`CONTINUE_WITH_NEXT_EVENTS = 2` in the source). -/
inductive Verdict
  | NEW_STATE_FOUND
  | TOO_MANY_PAGE_RELOAD
  | CONTINUE_WITH_NEXT_EVENTS
deriving DecidableEq, Repr

/-- The `all_failed` computation of `_handle_event_dispatch_side_effects`:
`last_dispatch_results = self._event_dispatch_log[:10]` followed by the
loop that clears `all_failed` on the first non-`FAILED` state.  Note the
source slices a prefix (`[:10]`), not a suffix. -/
def all_failed_check (log : List EventDispatchLogUnit) : Bool :=
  (log.take MAX_CONSECUTIVE_EVENT_DISPATCH_ERRORS).all
    fun u => decide (u.state = DispatchState.FAILED)

/-- The decision tail of `_handle_event_dispatch_side_effects`, once
`current_bones_xml` has been obtained: the fuzzy DOM comparison, the
reload-count bound, and the all-failed window, in source order. -/
def dispatch_side_effect_verdict (bones_equal : Bool)
    (reloaded_base_url_count : Nat)
    (event_dispatch_log : List EventDispatchLogUnit) : Verdict :=
  if ¬ bones_equal then
    Verdict.NEW_STATE_FOUND
  else if reloaded_base_url_count > MAX_PAGE_RELOAD then
    Verdict.TOO_MANY_PAGE_RELOAD
  else if all_failed_check event_dispatch_log then
    Verdict.NEW_STATE_FOUND
  else
    Verdict.CONTINUE_WITH_NEXT_EVENTS

/-! ## Fingerprint cache -/

/-- Modelled from the spec: `SynchronizedLRUDict` comes from the
third-party `darts.lib` package (not part of this repository).  The spec
pins its contract: a mapping with a fixed capacity and
least-recently-used eviction.  Entries are kept most-recently-used
first. -/
structure SynchronizedLRUDict where
  capacity : Nat
  entries : List (String × String)
deriving DecidableEq, Repr

/-- Lookup without recency update. -/
def SynchronizedLRUDict.lookup (c : SynchronizedLRUDict) (k : String) :
    Option String :=
  (c.entries.find? fun p => decide (p.1 = k)).map Prod.snd

/-- Recency refresh performed by a successful `__getitem__`: move the
entry for `k` to the most-recently-used position. -/
def SynchronizedLRUDict.touch (c : SynchronizedLRUDict) (k : String) :
    SynchronizedLRUDict :=
  match c.entries.find? fun p => decide (p.1 = k) with
  | none => c
  | some p => ⟨c.capacity, p :: c.entries.filter fun q => decide (q.1 ≠ k)⟩

/-- `__setitem__`: insert at the most-recently-used position, dropping
the least-recently-used entry when over capacity. -/
def SynchronizedLRUDict.insert (c : SynchronizedLRUDict) (k v : String) :
    SynchronizedLRUDict :=
  ⟨c.capacity,
   ((k, v) :: c.entries.filter fun q => decide (q.1 ≠ k)).take c.capacity⟩

/-- `_cached_get_xml_bones(dom_str)`: try the cache, on a `KeyError`
compute via the external `get_xml_bones` and store.  The third component
counts the invocations of `get_xml_bones` made by this call (0 or 1),
the call-count instrumentation the spec asks for. -/
def cached_get_xml_bones (get_xml_bones : String → String)
    (cache : SynchronizedLRUDict) (dom_str : String) :
    String × SynchronizedLRUDict × Nat :=
  match cache.lookup dom_str with
  | some xml_bones => (xml_bones, cache.touch dom_str, 0)
  | none =>
    let xml_bones := get_xml_bones dom_str
    (xml_bones, cache.insert dom_str xml_bones, 1)

/-- The cache produced by a whole sequence of `_cached_get_xml_bones`
calls, starting from the empty cache of capacity 2 built in
`__init__` (`SynchronizedLRUDict(2)`). -/
def runCache (get_xml_bones : String → String) (doms : List String) :
    SynchronizedLRUDict :=
  doms.foldl (fun c d => (cached_get_xml_bones get_xml_bones c d).2.1) ⟨2, []⟩

/-! ## The browser collaborator -/

/-- The hard browser-interface failure (`ChromeInterfaceException` from
`w3af.core.controllers.chrome.devtools.exceptions`); also the "DOM not
ready" condition a `get_dom` call can fail with. -/
inductive ChromeInterfaceError
  | interfaceException
deriving DecidableEq, Repr

/-- The failure kinds of `dispatch_js_event`: `EventException` (the
target element no longer exists), `EventTimeout`, or the hard
interface failure. -/
inductive ChromeDispatchError
  | eventException
  | eventTimeout
  | chromeInterfaceException
deriving DecidableEq, Repr

/-- The browser collaborator (`InstrumentedChrome`), modelled as an
abstract deterministic machine over a browser-state type `σ`: each
operation either fails (raising `ChromeInterfaceException`, or for
`dispatch_js_event` possibly `EventException`/`EventTimeout`) or
returns a result together with the next browser state.  The numeric
arguments of `wait_for_load`/`navigation_started` are the timeouts the
source passes. -/
structure InstrumentedChrome (σ : Type) where
  get_url : σ → Except ChromeInterfaceError (String × σ)
  get_dom : σ → Except ChromeInterfaceError (String × σ)
  get_all_event_listeners :
    σ → List String → Except ChromeInterfaceError (List Event × σ)
  dispatch_js_event : σ → String → String → Except ChromeDispatchError σ
  load_url : σ → String → Except ChromeInterfaceError σ
  wait_for_load : σ → Option ℚ → Except ChromeInterfaceError σ
  navigation_started : σ → ℚ → Except ChromeInterfaceError σ

/-! ## Session state -/

/-- The per-session mutable state of a `ChromeCrawlerJS` object: the
borrowed browser state plus the instance attributes set in `__init__`
and mutated during `crawl`. -/
structure CrawlerJS (σ : Type) where
  chrome : σ
  event_dispatch_log : List EventDispatchLogUnit
  url : String
  initial_dom : String
  initial_bones_xml : String
  reloaded_base_url_count : Nat
  visited_urls : List String
  cached_xml_bones : SynchronizedLRUDict
deriving Repr

/-- The object state right after `__init__` (with the browser handle
that `crawl` will store into `self._chrome`); `None` fields are modelled
as empty strings, `SynchronizedLRUDict(2)` as the empty cache of
capacity 2. -/
def initial_crawler (chrome0 : σ) : CrawlerJS σ where
  chrome := chrome0
  event_dispatch_log := []
  url := ""
  initial_dom := ""
  initial_bones_xml := ""
  reloaded_base_url_count := 0
  visited_urls := []
  cached_xml_bones := ⟨2, []⟩

/-- The session-abort signals that can unwind the state loop: a
propagating `ChromeInterfaceException`, or the internal `MaxPageReload`
exception raised on the `TOO_MANY_PAGE_RELOAD` verdict. -/
inductive SessionError
  | chromeInterfaceException
  | maxPageReload
deriving DecidableEq, Repr

/-! ## Session operations

Each operation returns `Except ... α × CrawlerJS σ`: the normal result
or the exception being raised, together with the object state at that
point (a Python object keeps all mutations performed before a raise). -/

/-- `_cached_get_xml_bones` acting on the session state. -/
def state_cached_get_xml_bones (get_xml_bones : String → String)
    (st : CrawlerJS σ) (dom_str : String) : String × CrawlerJS σ :=
  let r := cached_get_xml_bones get_xml_bones st.cached_xml_bones dom_str
  (r.1, {st with cached_xml_bones := r.2.1})

/-- `_dispatch_event(event)`: fire the event through the browser; map
`EventException`/`EventTimeout` to a `FAILED` log entry and `False`,
success to a `SUCCESS` entry and `True`; let any other exception
propagate with no entry appended. -/
def dispatch_event (ch : InstrumentedChrome σ) (st : CrawlerJS σ)
    (event : Event) : Except ChromeInterfaceError Bool × CrawlerJS σ :=
  match ch.dispatch_js_event st.chrome event.selector event.event_type with
  | Except.error ChromeDispatchError.eventException =>
    (Except.ok false,
     {st with event_dispatch_log :=
        st.event_dispatch_log ++ [⟨event, DispatchState.FAILED⟩]})
  | Except.error ChromeDispatchError.eventTimeout =>
    (Except.ok false,
     {st with event_dispatch_log :=
        st.event_dispatch_log ++ [⟨event, DispatchState.FAILED⟩]})
  | Except.error ChromeDispatchError.chromeInterfaceException =>
    (Except.error ChromeInterfaceError.interfaceException, st)
  | Except.ok s =>
    (Except.ok true,
     {st with chrome := s,
              event_dispatch_log :=
                st.event_dispatch_log ++ [⟨event, DispatchState.SUCCESS⟩]})

/-- `_reload_base_url()`: bump the reload counter (before any browser
call, as in the source), load the home URL, wait for the load. -/
def reload_base_url (ch : InstrumentedChrome σ) (st : CrawlerJS σ) :
    Except ChromeInterfaceError Unit × CrawlerJS σ :=
  let st1 :=
    {st with reloaded_base_url_count := st.reloaded_base_url_count + 1}
  match ch.load_url st1.chrome st1.url with
  | Except.error e => (Except.error e, st1)
  | Except.ok s =>
    match ch.wait_for_load s none with
    | Except.error e => (Except.error e, {st1 with chrome := s})
    | Except.ok s2 => (Except.ok (), {st1 with chrome := s2})

/-- `_conditional_wait_for_load()`: read the current URL; give each URL
at most one grace wait per session. -/
def conditional_wait_for_load (ch : InstrumentedChrome σ)
    (st : CrawlerJS σ) : Except ChromeInterfaceError Unit × CrawlerJS σ :=
  match ch.get_url st.chrome with
  | Except.error e => (Except.error e, st)
  | Except.ok (potentially_new_url, s) =>
    let st1 := {st with chrome := s}
    if potentially_new_url ∈ st1.visited_urls then
      (Except.ok (), st1)
    else
      let st2 := {st1 with visited_urls :=
        potentially_new_url :: st1.visited_urls}
      match ch.wait_for_load st2.chrome (some 1) with
      | Except.error e => (Except.error e, st2)
      | Except.ok s2 => (Except.ok (), {st2 with chrome := s2})

/-- The tail of `_handle_event_dispatch_side_effects` once
`current_dom` is in hand: fingerprint it through the cache and apply the
three checks. -/
def side_effects_after_dom (get_xml_bones : String → String)
    (similarity : String → String → ℚ) (st : CrawlerJS σ)
    (current_dom : String) : Verdict × CrawlerJS σ :=
  let r := state_cached_get_xml_bones get_xml_bones st current_dom
  (dispatch_side_effect_verdict
     (bones_xml_are_equal similarity r.2.initial_bones_xml r.1)
     r.2.reloaded_base_url_count r.2.event_dispatch_log,
   r.2)

/-- The recovery path shared by both branches of
`_handle_event_dispatch_side_effects`: grace wait, forced reload of the
home URL, fresh DOM read, then the checks. -/
def side_effects_recover (ch : InstrumentedChrome σ)
    (get_xml_bones : String → String) (similarity : String → String → ℚ)
    (st : CrawlerJS σ) : Except ChromeInterfaceError Verdict × CrawlerJS σ :=
  match conditional_wait_for_load ch st with
  | (Except.error e, st1) => (Except.error e, st1)
  | (Except.ok _, st1) =>
    match reload_base_url ch st1 with
    | (Except.error e, st2) => (Except.error e, st2)
    | (Except.ok _, st2) =>
      match ch.get_dom st2.chrome with
      | Except.error e => (Except.error e, st2)
      | Except.ok (current_dom, s) =>
        let r := side_effects_after_dom get_xml_bones similarity
          {st2 with chrome := s} current_dom
        (Except.ok r.1, r.2)

/-- `_handle_event_dispatch_side_effects()`.  Only the first `get_dom`
is inside the `try`; a failure there (DOM not ready) takes the recovery
path, as does a successful read whose current URL differs from the home
URL. -/
def handle_event_dispatch_side_effects (ch : InstrumentedChrome σ)
    (get_xml_bones : String → String) (similarity : String → String → ℚ)
    (st : CrawlerJS σ) : Except ChromeInterfaceError Verdict × CrawlerJS σ :=
  match ch.get_dom st.chrome with
  | Except.error _ => side_effects_recover ch get_xml_bones similarity st
  | Except.ok (current_dom, s) =>
    let st1 := {st with chrome := s}
    match ch.get_url st1.chrome with
    | Except.error e => (Except.error e, st1)
    | Except.ok (potentially_new_url, s2) =>
      let st2 := {st1 with chrome := s2}
      if potentially_new_url ≠ st2.url then
        side_effects_recover ch get_xml_bones similarity st2
      else
        let r := side_effects_after_dom get_xml_bones similarity st2
          current_dom
        (Except.ok r.1, r.2)

/-- The `for event_i, event in enumerate(event_listeners)` loop of
`_crawl_one_state`, followed by the trailing settle waits.  Returns
`True` when every listener was processed without an early exit
(`successfully_completed`), `False` on a `NEW_STATE_FOUND` verdict, and
raises `MaxPageReload` on `TOO_MANY_PAGE_RELOAD`. -/
def crawl_one_state_loop (ch : InstrumentedChrome σ)
    (get_xml_bones : String → String) (similarity : String → String → ℚ) :
    List Event → CrawlerJS σ → Except SessionError Bool × CrawlerJS σ
  | [], st =>
    match ch.wait_for_load st.chrome (some (mkRat 1 2)) with
    | Except.error _ =>
      (Except.error SessionError.chromeInterfaceException, st)
    | Except.ok s =>
      match ch.navigation_started s (mkRat 1 2) with
      | Except.error _ =>
        (Except.error SessionError.chromeInterfaceException,
         {st with chrome := s})
      | Except.ok s2 => (Except.ok true, {st with chrome := s2})
  | event :: rest, st =>
    let p := should_dispatch_event st.event_dispatch_log event
    let st1 := {st with event_dispatch_log := p.2}
    if p.1 then
      let d := dispatch_event ch st1 event
      match d.1 with
      | Except.error _ =>
        (Except.error SessionError.chromeInterfaceException, d.2)
      | Except.ok _ =>
        let h := handle_event_dispatch_side_effects ch get_xml_bones
          similarity d.2
        match h.1 with
        | Except.error _ =>
          (Except.error SessionError.chromeInterfaceException, h.2)
        | Except.ok Verdict.CONTINUE_WITH_NEXT_EVENTS =>
          crawl_one_state_loop ch get_xml_bones similarity rest h.2
        | Except.ok Verdict.NEW_STATE_FOUND => (Except.ok false, h.2)
        | Except.ok Verdict.TOO_MANY_PAGE_RELOAD =>
          (Except.error SessionError.maxPageReload, h.2)
    else
      crawl_one_state_loop ch get_xml_bones similarity rest st1

/-- `_crawl_one_state()`: snapshot the DOM, record its fingerprint as
the state's initial fingerprint, enumerate the listeners, run the
dispatch loop. -/
def crawl_one_state (ch : InstrumentedChrome σ)
    (get_xml_bones : String → String) (similarity : String → String → ℚ)
    (st : CrawlerJS σ) : Except SessionError Bool × CrawlerJS σ :=
  match ch.get_dom st.chrome with
  | Except.error _ =>
    (Except.error SessionError.chromeInterfaceException, st)
  | Except.ok (dom, s) =>
    let st1 := {st with chrome := s, initial_dom := dom}
    let r := state_cached_get_xml_bones get_xml_bones st1 dom
    let st2 := {r.2 with initial_bones_xml := r.1}
    match ch.get_all_event_listeners st2.chrome EVENTS_TO_DISPATCH with
    | Except.error _ =>
      (Except.error SessionError.chromeInterfaceException, st2)
    | Except.ok (event_listeners, s2) =>
      crawl_one_state_loop ch get_xml_bones similarity event_listeners
        {st2 with chrome := s2}

/-- The `while` loop of `_crawl_all_states()`, with the remaining number
of initial-state attempts as fuel: stop when an attempt completes
successfully, break (catching it) on `MaxPageReload`, and let a
`ChromeInterfaceException` propagate. -/
def crawl_all_states_loop (ch : InstrumentedChrome σ)
    (get_xml_bones : String → String) (similarity : String → String → ℚ) :
    Nat → CrawlerJS σ → Except ChromeInterfaceError Unit × CrawlerJS σ
  | 0, st => (Except.ok (), st)
  | n + 1, st =>
    match crawl_one_state ch get_xml_bones similarity st with
    | (Except.error SessionError.maxPageReload, st1) => (Except.ok (), st1)
    | (Except.error SessionError.chromeInterfaceException, st1) =>
      (Except.error ChromeInterfaceError.interfaceException, st1)
    | (Except.ok true, st1) => (Except.ok (), st1)
    | (Except.ok false, st1) =>
      crawl_all_states_loop ch get_xml_bones similarity n st1

/-- `_crawl_all_states()`. -/
def crawl_all_states (ch : InstrumentedChrome σ)
    (get_xml_bones : String → String) (similarity : String → String → ℚ)
    (st : CrawlerJS σ) : Except ChromeInterfaceError Unit × CrawlerJS σ :=
  crawl_all_states_loop ch get_xml_bones similarity MAX_INITIAL_STATES st

/-- `crawl(chrome, url)`: store the browser handle, set the home URL
from `chrome.get_url()` — note this read happens *outside* the
`try`/`except` block — then run all states, converting a
`ChromeInterfaceException` from `_crawl_all_states` into a logged normal
return.  The `url` argument is only used in the log message. -/
def crawl (ch : InstrumentedChrome σ) (get_xml_bones : String → String)
    (similarity : String → String → ℚ) (chrome0 : σ) (url : String) :
    Except ChromeInterfaceError Unit × CrawlerJS σ :=
  let st := initial_crawler chrome0
  match ch.get_url st.chrome with
  | Except.error e => (Except.error e, st)
  | Except.ok (u, s) =>
    let st1 := {st with chrome := s, url := u}
    let r := crawl_all_states ch get_xml_bones similarity st1
    (Except.ok (), r.2)

/-! ## Concrete collaborator instances used for concrete runs -/

/-- A browser in which every operation succeeds, the page stays at
`"home"` with DOM `"dom"`, and no listeners are attached. -/
def chromeStub : InstrumentedChrome Unit where
  get_url := fun _ => Except.ok ("home", ())
  get_dom := fun _ => Except.ok ("dom", ())
  get_all_event_listeners := fun _ _ => Except.ok ([], ())
  dispatch_js_event := fun _ _ _ => Except.ok ()
  load_url := fun _ _ => Except.ok ()
  wait_for_load := fun _ _ => Except.ok ()
  navigation_started := fun _ _ => Except.ok ()

/-- A concrete similarity measure: identical strings are fully similar,
distinct ones not at all. -/
def simEq : String → String → ℚ := fun a b => if a = b then 1 else 0

/-- A browser that reports `"home"` on the first `get_url` read and
`"away"` afterwards (every dispatched event navigates away), serves a
stable DOM, and exposes 51 distinct click listeners.  Every classifier
call on it performs one forced home reload. -/
def chromeAway : InstrumentedChrome Nat where
  get_url := fun n => Except.ok (if n = 0 then "home" else "away", n + 1)
  get_dom := fun n => Except.ok ("dom", n)
  get_all_event_listeners := fun n _ =>
    Except.ok ((List.range 51).map fun i => ⟨toString i, "click"⟩, n)
  dispatch_js_event := fun n _ _ => Except.ok n
  load_url := fun n _ => Except.ok n
  wait_for_load := fun n _ => Except.ok n
  navigation_started := fun n _ => Except.ok n

/-- A browser whose very first `get_url` already raises the hard
interface failure. -/
def chromeGetUrlFails : InstrumentedChrome Unit :=
  {chromeStub with get_url := fun _ => Except.error ChromeInterfaceError.interfaceException}

/-- A session state ready to dispatch in a state whose initial
fingerprint (`"other"`) differs from the DOM `chromeStub` serves, so the
first dispatch produces a `NEW_STATE_FOUND` verdict. -/
def stWitness : CrawlerJS Unit where
  chrome := ()
  event_dispatch_log := []
  url := "home"
  initial_dom := ""
  initial_bones_xml := "other"
  reloaded_base_url_count := 0
  visited_urls := []
  cached_xml_bones := ⟨2, []⟩

/-! ## Theorems -/

/-- The scan of `_should_dispatch_event` is decided by the first log
entry whose type-selector key matches: no match or a `FAILED` match
admits the event, any other match ignores it. -/
theorem should_dispatch_loop_eq_first_matching (log_all : List EventDispatchLogUnit)
    (event : Event) (key : String × String) (l : List EventDispatchLogUnit) :
    should_dispatch_loop log_all event key l =
      match first_matching_state key l with
      | none => (true, log_all)
      | some DispatchState.FAILED => (true, log_all)
      | some DispatchState.IGNORED => (false, ignore_event log_all event)
      | some DispatchState.SUCCESS => (false, ignore_event log_all event) := by
  induction l with
  | nil => rfl
  | cons u rest ih =>
    by_cases h : u.event.get_type_selector = key
    · cases hs : u.state <;>
        simp [should_dispatch_loop, first_matching_state, h, hs]
    · simp [should_dispatch_loop, first_matching_state, h, ih]

/-- If every log entry matching `key` is `FAILED`, the scan admits the
event and leaves the log unchanged. -/
theorem should_dispatch_loop_of_all_failed (log_all : List EventDispatchLogUnit)
    (event : Event) (key : String × String) (l : List EventDispatchLogUnit)
    (hall : ∀ u ∈ l, u.event.get_type_selector = key →
      u.state = DispatchState.FAILED) :
    should_dispatch_loop log_all event key l = (true, log_all) := by
  induction l with
  | nil => rfl
  | cons u rest ih =>
    by_cases h : u.event.get_type_selector = key
    · have hu := hall u (by simp) h
      simp [should_dispatch_loop, h, hu]
    · simp only [should_dispatch_loop, h]
      simp only [ne_eq, h, not_false_eq_true, if_true]
      exact ih fun v hv hk => hall v (by simp [hv]) hk

/-- C1 counterexample: for the key `("click", "a")` the log below holds a
`SUCCESS` entry, yet `_should_dispatch_event` admits the event again
(returning `true` and appending nothing), because the scan stops at the
earlier `FAILED` entry for the same key.  The claim predicted an
`IGNORED` entry and `false` regardless of where the `SUCCESS` entry
sits. -/
theorem c1_success_after_failed_is_redispatched :
    (∃ u ∈ [(⟨⟨"a", "click"⟩, DispatchState.FAILED⟩ : EventDispatchLogUnit),
            ⟨⟨"a", "click"⟩, DispatchState.SUCCESS⟩],
       u.event.get_type_selector = Event.get_type_selector ⟨"a", "click"⟩ ∧
       u.state = DispatchState.SUCCESS) ∧
    should_dispatch_event
        [⟨⟨"a", "click"⟩, DispatchState.FAILED⟩,
         ⟨⟨"a", "click"⟩, DispatchState.SUCCESS⟩] ⟨"a", "click"⟩ =
      (true,
       [⟨⟨"a", "click"⟩, DispatchState.FAILED⟩,
        ⟨⟨"a", "click"⟩, DispatchState.SUCCESS⟩]) := by
  constructor
  · exact ⟨⟨⟨"a", "click"⟩, DispatchState.SUCCESS⟩, by decide, by decide, rfl⟩
  · decide

/-- C1 amended: for a dispatchable event type, `_should_dispatch_event`
records `IGNORED` and returns `false` exactly when the *first* log entry
with the event's type-selector key has outcome `SUCCESS` or `IGNORED`;
with no matching entry, or a first matching entry that is `FAILED`, it
returns `true` and appends nothing. -/
theorem c1_admission_decided_by_first_matching_entry
    (log : List EventDispatchLogUnit) (event : Event)
    (htype : event.event_type ∈ EVENTS_TO_DISPATCH) :
    should_dispatch_event log event =
      match first_matching_state event.get_type_selector log with
      | none => (true, log)
      | some DispatchState.FAILED => (true, log)
      | some DispatchState.IGNORED => (false, ignore_event log event)
      | some DispatchState.SUCCESS => (false, ignore_event log event) := by
  unfold should_dispatch_event
  rw [if_pos htype]
  exact should_dispatch_loop_eq_first_matching log event
    event.get_type_selector log

/-- Witness for the amended C1 at a concrete input: a key whose first
(and only) entry is `SUCCESS` is ignored and an `IGNORED` entry is
appended. -/
theorem c1_admission_witness :
    should_dispatch_event [⟨⟨"a", "click"⟩, DispatchState.SUCCESS⟩]
        ⟨"a", "click"⟩ =
      (false,
       ignore_event [⟨⟨"a", "click"⟩, DispatchState.SUCCESS⟩] ⟨"a", "click"⟩) := by
  have h := c1_admission_decided_by_first_matching_entry
    [⟨⟨"a", "click"⟩, DispatchState.SUCCESS⟩] ⟨"a", "click"⟩ (by decide)
  simpa using h

/-- C4: an event of a dispatchable type whose type-selector key has at
least one prior log entry, all of whose matching entries are `FAILED`,
is re-admitted: the filter returns `true` and appends no `IGNORED`
entry. -/
theorem c4_retry_on_failure (log : List EventDispatchLogUnit) (event : Event)
    (htype : event.event_type ∈ EVENTS_TO_DISPATCH)
    (hprior : ∃ u ∈ log, u.event.get_type_selector = event.get_type_selector)
    (hall : ∀ u ∈ log, u.event.get_type_selector = event.get_type_selector →
      u.state = DispatchState.FAILED) :
    should_dispatch_event log event = (true, log) := by
  unfold should_dispatch_event
  rw [if_pos htype]
  exact should_dispatch_loop_of_all_failed log event
    event.get_type_selector log hall

/-- Witness for C4 at a concrete input: one prior `FAILED` entry for the
key, the event is re-admitted with the log unchanged. -/
theorem c4_retry_witness :
    should_dispatch_event [⟨⟨"a", "click"⟩, DispatchState.FAILED⟩]
        ⟨"a", "click"⟩ =
      (true, [⟨⟨"a", "click"⟩, DispatchState.FAILED⟩]) :=
  c4_retry_on_failure _ _ (by decide)
    ⟨⟨⟨"a", "click"⟩, DispatchState.FAILED⟩, by decide, rfl⟩ (by decide)

/-- When the reload bound is not exceeded and the 10-entry window of the
log is all `FAILED`, the classifier returns `NEW_STATE_FOUND` whatever
the fingerprint comparison said (an unequal fingerprint returns the same
verdict one check earlier). -/
theorem verdict_new_state_of_all_failed (bones_equal : Bool) (count : Nat)
    (log : List EventDispatchLogUnit) (hcount : count ≤ MAX_PAGE_RELOAD)
    (hfc : all_failed_check log = true) :
    dispatch_side_effect_verdict bones_equal count log =
      Verdict.NEW_STATE_FOUND := by
  unfold dispatch_side_effect_verdict
  cases bones_equal
  · simp
  · simp [hfc, Nat.not_lt.mpr hcount]

/-- C2 counterexample: a log of 11 entries whose last 10 (the tail) are
all `FAILED`, with the fingerprint check passed and no reloads, is
classified `CONTINUE_WITH_NEXT_EVENTS`, not `NEW_STATE_FOUND`: the
source inspects the prefix `log[:10]`, which still holds the old
`SUCCESS` entry. -/
theorem c2_tail_failures_not_detected :
    (let log := (⟨⟨"s", "click"⟩, DispatchState.SUCCESS⟩ : EventDispatchLogUnit) ::
        List.replicate 10 ⟨⟨"f", "click"⟩, DispatchState.FAILED⟩
     ((log.drop (log.length - MAX_CONSECUTIVE_EVENT_DISPATCH_ERRORS)).all
        fun u => decide (u.state = DispatchState.FAILED)) = true ∧
     dispatch_side_effect_verdict true 0 log =
       Verdict.CONTINUE_WITH_NEXT_EVENTS) := by decide

/-- C2 amended: when the reload count is within the bound and the *first*
10 log entries (the prefix `log[:10]` the source actually slices) are
all `FAILED`, the classifier returns `NEW_STATE_FOUND`, regardless of
the rest of the log and of the fingerprint comparison. -/
theorem c2_prefix_failure_window (bones_equal : Bool) (count : Nat)
    (log : List EventDispatchLogUnit) (hcount : count ≤ MAX_PAGE_RELOAD)
    (hfail : ∀ u ∈ log.take MAX_CONSECUTIVE_EVENT_DISPATCH_ERRORS,
      u.state = DispatchState.FAILED) :
    dispatch_side_effect_verdict bones_equal count log =
      Verdict.NEW_STATE_FOUND := by
  apply verdict_new_state_of_all_failed _ _ _ hcount
  simp only [all_failed_check, List.all_eq_true, decide_eq_true_eq]
  exact hfail

/-- Witness for the amended C2 at a concrete input: ten `FAILED` entries
followed by a `SUCCESS` entry still classify as `NEW_STATE_FOUND`. -/
theorem c2_prefix_failure_witness :
    dispatch_side_effect_verdict true 3
        (List.replicate 10 ⟨⟨"f", "click"⟩, DispatchState.FAILED⟩ ++
         [⟨⟨"s", "click"⟩, DispatchState.SUCCESS⟩]) =
      Verdict.NEW_STATE_FOUND :=
  c2_prefix_failure_window true 3 _ (by decide) (by decide)

/-- C3 counterexample: a full crawl of a page whose 51 distinct click
listeners each navigate away performs 51 forced home reloads before the
`TOO_MANY_PAGE_RELOAD` verdict ends the session; moreover at a reload
count of exactly 50 the classifier still answers
`CONTINUE_WITH_NEXT_EVENTS`, so the session's 51st reload happens before
any such verdict.  The claim said the count never goes above 50. -/
theorem c3_fifty_one_reloads_before_verdict :
    (crawl chromeAway id simEq 0 "home").2.reloaded_base_url_count = 51 ∧
    (crawl chromeAway id simEq 0 "home").1.isOk = true ∧
    dispatch_side_effect_verdict true 50
        [⟨⟨"s", "click"⟩, DispatchState.SUCCESS⟩] =
      Verdict.CONTINUE_WITH_NEXT_EVENTS := by
  refine ⟨by decide, by decide, by decide⟩

/-- C3 amended: the classifier returns `TOO_MANY_PAGE_RELOAD` exactly
when the fingerprint check passed and the reload count *strictly*
exceeds `MAX_PAGE_RELOAD = 50`; hence the verdict can only appear once
at least 51 forced reloads have been performed, and the session's 51st
reload does happen before it. -/
theorem c3_too_many_reload_iff (bones_equal : Bool) (count : Nat)
    (log : List EventDispatchLogUnit) :
    dispatch_side_effect_verdict bones_equal count log =
        Verdict.TOO_MANY_PAGE_RELOAD ↔
      bones_equal = true ∧ MAX_PAGE_RELOAD < count := by
  unfold dispatch_side_effect_verdict
  cases bones_equal <;> by_cases h : MAX_PAGE_RELOAD < count <;>
    by_cases h2 : all_failed_check log = true <;> simp_all

/-- C10: when the log holds fewer than 10 entries, all of them `FAILED`,
the classifier (reached with the reload count within bound) already
returns `NEW_STATE_FOUND` — in particular a single failed first dispatch
abandons the state at the next classification. -/
theorem c10_short_all_failed_log_new_state (bones_equal : Bool) (count : Nat)
    (log : List EventDispatchLogUnit) (hcount : count ≤ MAX_PAGE_RELOAD)
    (hshort : log.length < MAX_CONSECUTIVE_EVENT_DISPATCH_ERRORS)
    (hfail : ∀ u ∈ log, u.state = DispatchState.FAILED) :
    dispatch_side_effect_verdict bones_equal count log =
      Verdict.NEW_STATE_FOUND := by
  apply verdict_new_state_of_all_failed _ _ _ hcount
  simp only [all_failed_check, List.all_eq_true, decide_eq_true_eq]
  exact fun u hu => hfail u (List.mem_of_mem_take hu)

/-- Witness for C10 at a concrete input: one single `FAILED` entry and
the next classification already abandons the state. -/
theorem c10_single_failure_witness :
    dispatch_side_effect_verdict true 0
        [⟨⟨"f", "click"⟩, DispatchState.FAILED⟩] =
      Verdict.NEW_STATE_FOUND :=
  c10_short_all_failed_log_new_state true 0 _ (by decide) (by decide) (by decide)

/-- Full characterisation of the classifier's `NEW_STATE_FOUND` verdict
in terms of the raw checks: it fires when the fingerprint comparison
failed, or when it passed, the reload bound is not exceeded, and the
10-entry log window is all `FAILED`. -/
theorem verdict_new_state_iff (bones_equal : Bool) (count : Nat)
    (log : List EventDispatchLogUnit) :
    dispatch_side_effect_verdict bones_equal count log =
        Verdict.NEW_STATE_FOUND ↔
      (bones_equal = false ∨
       (bones_equal = true ∧ count ≤ MAX_PAGE_RELOAD ∧
        all_failed_check log = true)) := by
  unfold dispatch_side_effect_verdict
  cases bones_equal
  · simp
  · by_cases hc : MAX_PAGE_RELOAD < count
    · simp [hc, Nat.not_le.mpr hc]
    · by_cases hf : all_failed_check log = true
      · simp [hc, hf, Nat.not_lt.mp hc]
      · simp [hc, hf]

/-- C5 counterexample: with the fingerprints fuzzily equal (similarity
1, well above the threshold) the classifier still returns
`NEW_STATE_FOUND` when the 10-entry log window is all `FAILED`, so
`NEW_STATE_FOUND` is *not* returned exactly when `fuzzy_equal` is
false. -/
theorem c5_new_state_without_fingerprint_change :
    bones_xml_are_equal simEq "x" "x" = true ∧
    dispatch_side_effect_verdict (bones_xml_are_equal simEq "x" "x") 0
        (List.replicate 10 ⟨⟨"f", "click"⟩, DispatchState.FAILED⟩) =
      Verdict.NEW_STATE_FOUND := by decide

/-- C5 amended: (1) the classifier returns `NEW_STATE_FOUND` iff the
similarity of the two fingerprints is below the 0.9 threshold, or it is
at least the threshold while the reload count is within bound and the
10-entry log window is all `FAILED`; (2) similarity exactly at the
threshold counts as equal; (3) on a `NEW_STATE_FOUND` verdict the state
loop returns `false` immediately, dispatching none of the remaining
listeners. -/
theorem c5_new_state_characterisation (similarity : String → String → ℚ)
    (a b : String) (count : Nat) (log : List EventDispatchLogUnit) :
    (dispatch_side_effect_verdict (bones_xml_are_equal similarity a b) count log =
        Verdict.NEW_STATE_FOUND ↔
      (similarity a b < EQUAL_RATIO_AFTER_BACK ∨
       (EQUAL_RATIO_AFTER_BACK ≤ similarity a b ∧ count ≤ MAX_PAGE_RELOAD ∧
        all_failed_check log = true))) ∧
    (similarity a b = EQUAL_RATIO_AFTER_BACK →
      bones_xml_are_equal similarity a b = true) ∧
    (∀ (σ : Type) (ch : InstrumentedChrome σ) (gb : String → String)
       (sim2 : String → String → ℚ) (event : Event) (rest : List Event)
       (st : CrawlerJS σ),
       (should_dispatch_event st.event_dispatch_log event).1 = true →
       ((dispatch_event ch
           {st with event_dispatch_log :=
              (should_dispatch_event st.event_dispatch_log event).2} event).1).isOk = true →
       (handle_event_dispatch_side_effects ch gb sim2
           (dispatch_event ch
             {st with event_dispatch_log :=
                (should_dispatch_event st.event_dispatch_log event).2} event).2).1 =
         Except.ok Verdict.NEW_STATE_FOUND →
       crawl_one_state_loop ch gb sim2 (event :: rest) st =
         (Except.ok false,
          (handle_event_dispatch_side_effects ch gb sim2
            (dispatch_event ch
              {st with event_dispatch_log :=
                 (should_dispatch_event st.event_dispatch_log event).2} event).2).2)) := by
  refine ⟨?_, ?_, ?_⟩
  · have hbf : (bones_xml_are_equal similarity a b = false) ↔
        similarity a b < EQUAL_RATIO_AFTER_BACK := by
      rw [bones_xml_are_equal, fuzzy_equal, decide_eq_false_iff_not, not_le]
    have hbt : (bones_xml_are_equal similarity a b = true) ↔
        EQUAL_RATIO_AFTER_BACK ≤ similarity a b := by
      simp [bones_xml_are_equal, fuzzy_equal]
    rw [verdict_new_state_iff, hbf, hbt]
  · intro h
    simp [bones_xml_are_equal, fuzzy_equal, h]
  · intro σ ch gb sim2 event rest st h1 h2 h3
    simp only [crawl_one_state_loop, h1, if_true]
    cases hd : (dispatch_event ch
        {st with event_dispatch_log :=
           (should_dispatch_event st.event_dispatch_log event).2} event).1 with
    | error e => rw [hd] at h2; simp [Except.isOk, Except.toBool] at h2
    | ok b2 =>
      dsimp only
      rw [h3]

/-- Witness for the amended C5 at a concrete input: in a state whose
initial fingerprint differs from the served DOM, the loop over two
listeners stops after the first one with result `false`. -/
theorem c5_loop_stop_witness :
    crawl_one_state_loop chromeStub id simEq
        [⟨"a", "click"⟩, ⟨"b", "click"⟩] stWitness =
      (Except.ok false,
       (handle_event_dispatch_side_effects chromeStub id simEq
         (dispatch_event chromeStub
           {stWitness with event_dispatch_log :=
              (should_dispatch_event stWitness.event_dispatch_log
                ⟨"a", "click"⟩).2} ⟨"a", "click"⟩).2).2) :=
  (c5_new_state_characterisation simEq "a" "b" 0 []).2.2 Unit chromeStub id simEq
    ⟨"a", "click"⟩ [⟨"b", "click"⟩] stWitness (by decide) (by decide) (by rfl)

/-- `_cached_get_xml_bones` never touches the session's home URL. -/
theorem url_state_cached (gb : String → String) (st : CrawlerJS σ) (d : String) :
    (state_cached_get_xml_bones gb st d).2.url = st.url := rfl

/-- The classifier's decision tail never touches the home URL. -/
theorem url_side_effects_after_dom (gb : String → String)
    (sim : String → String → ℚ) (st : CrawlerJS σ) (d : String) :
    (side_effects_after_dom gb sim st d).2.url = st.url := rfl

/-- `_dispatch_event` never touches the home URL. -/
theorem url_dispatch_event (ch : InstrumentedChrome σ) (st : CrawlerJS σ)
    (e : Event) : (dispatch_event ch st e).2.url = st.url := by
  unfold dispatch_event
  split <;> rfl

/-- `_reload_base_url` reloads the home URL but never changes it. -/
theorem url_reload_base_url (ch : InstrumentedChrome σ) (st : CrawlerJS σ) :
    (reload_base_url ch st).2.url = st.url := by
  unfold reload_base_url
  dsimp only
  split
  · rfl
  · split <;> rfl

/-- `_conditional_wait_for_load` never touches the home URL. -/
theorem url_conditional_wait (ch : InstrumentedChrome σ) (st : CrawlerJS σ) :
    (conditional_wait_for_load ch st).2.url = st.url := by
  unfold conditional_wait_for_load
  dsimp only
  split
  · rfl
  · split
    · rfl
    · split <;> rfl

/-- The classifier's recovery path never touches the home URL. -/
theorem url_side_effects_recover (ch : InstrumentedChrome σ)
    (gb : String → String) (sim : String → String → ℚ) (st : CrawlerJS σ) :
    (side_effects_recover ch gb sim st).2.url = st.url := by
  unfold side_effects_recover
  rcases hcw : conditional_wait_for_load ch st with ⟨cwr, st1⟩
  have h1 : st1.url = st.url := by
    have h := url_conditional_wait ch st
    rw [hcw] at h
    exact h
  cases cwr with
  | error e => exact h1
  | ok r =>
    dsimp only
    rcases hrl : reload_base_url ch st1 with ⟨rr, st2⟩
    have h2 : st2.url = st1.url := by
      have h := url_reload_base_url ch st1
      rw [hrl] at h
      exact h
    cases rr with
    | error e => exact h2.trans h1
    | ok r2 =>
      dsimp only
      rcases hgd : ch.get_dom st2.chrome with e | ⟨dom, s⟩
      · exact h2.trans h1
      · exact (url_side_effects_after_dom gb sim _ dom).trans (h2.trans h1)

/-- `_handle_event_dispatch_side_effects` never touches the home URL. -/
theorem url_handle_side_effects (ch : InstrumentedChrome σ)
    (gb : String → String) (sim : String → String → ℚ) (st : CrawlerJS σ) :
    (handle_event_dispatch_side_effects ch gb sim st).2.url = st.url := by
  unfold handle_event_dispatch_side_effects
  rcases hgd : ch.get_dom st.chrome with e | ⟨dom, s⟩
  · exact url_side_effects_recover ch gb sim st
  · dsimp only
    rcases hgu : ch.get_url s with e2 | ⟨pnu, s2⟩
    · rfl
    · dsimp only
      split
      · exact url_side_effects_recover ch gb sim _
      · exact url_side_effects_after_dom gb sim _ dom

/-- The per-state dispatch loop never touches the home URL. -/
theorem url_crawl_one_state_loop (ch : InstrumentedChrome σ)
    (gb : String → String) (sim : String → String → ℚ) (events : List Event) :
    ∀ st : CrawlerJS σ,
      (crawl_one_state_loop ch gb sim events st).2.url = st.url := by
  induction events with
  | nil =>
    intro st
    unfold crawl_one_state_loop
    rcases hwl : ch.wait_for_load st.chrome (some (mkRat 1 2)) with e | s
    · rfl
    · dsimp only
      rcases hns : ch.navigation_started s (mkRat 1 2) with e | s2 <;> rfl
  | cons event rest ih =>
    intro st
    unfold crawl_one_state_loop
    dsimp only
    split
    · rcases hd : dispatch_event ch
          {st with event_dispatch_log :=
            (should_dispatch_event st.event_dispatch_log event).2} event with ⟨dr, std⟩
      have hdu : std.url = st.url := by
        have h := url_dispatch_event ch
          {st with event_dispatch_log :=
            (should_dispatch_event st.event_dispatch_log event).2} event
        rw [hd] at h
        exact h
      cases dr with
      | error e => exact hdu
      | ok b =>
        dsimp only
        rcases hh : handle_event_dispatch_side_effects ch gb sim std with ⟨hr, sth⟩
        have hhu : sth.url = std.url := by
          have h := url_handle_side_effects ch gb sim std
          rw [hh] at h
          exact h
        cases hr with
        | error e => exact hhu.trans hdu
        | ok v =>
          cases v with
          | NEW_STATE_FOUND => exact hhu.trans hdu
          | TOO_MANY_PAGE_RELOAD => exact hhu.trans hdu
          | CONTINUE_WITH_NEXT_EVENTS => exact (ih sth).trans (hhu.trans hdu)
    · exact ih _

/-- `_crawl_one_state` never touches the home URL. -/
theorem url_crawl_one_state (ch : InstrumentedChrome σ)
    (gb : String → String) (sim : String → String → ℚ) (st : CrawlerJS σ) :
    (crawl_one_state ch gb sim st).2.url = st.url := by
  unfold crawl_one_state
  rcases hgd : ch.get_dom st.chrome with e | ⟨dom, s⟩
  · rfl
  · dsimp only
    split
    · rfl
    · exact url_crawl_one_state_loop ch gb sim _ _

/-- `_crawl_all_states` never touches the home URL. -/
theorem url_crawl_all_states_loop (ch : InstrumentedChrome σ)
    (gb : String → String) (sim : String → String → ℚ) (n : Nat) :
    ∀ st : CrawlerJS σ,
      (crawl_all_states_loop ch gb sim n st).2.url = st.url := by
  induction n with
  | zero => intro st; rfl
  | succ n ih =>
    intro st
    unfold crawl_all_states_loop
    rcases hcs : crawl_one_state ch gb sim st with ⟨cr, st1⟩
    have h1 : st1.url = st.url := by
      have h := url_crawl_one_state ch gb sim st
      rw [hcs] at h
      exact h
    cases cr with
    | error e => cases e <;> exact h1
    | ok b =>
      cases b with
      | false => exact (ih st1).trans h1
      | true => exact h1

/-- C9 counterexample: a session started with `crawl(browser, "requested")`
on a browser whose current URL is `"home"` uses `"home"` — the value of
`chrome.get_url()` — as its home URL, not the `url` argument it was
asked to crawl. -/
theorem c9_home_url_counterexample :
    (crawl chromeStub id simEq () "requested").2.url = "home" ∧
    ("home" : String) ≠ "requested" := ⟨by decide, by decide⟩

/-- C9 amended: the session's home URL — compared against the browser's
URL after each dispatch and used as every forced reload's target — is
whatever `chrome.get_url()` returns when `crawl` starts, and it stays
that value for the whole session; it is not taken from the `url`
argument. -/
theorem c9_home_url_from_initial_get_url (σ : Type) (ch : InstrumentedChrome σ)
    (gb : String → String) (sim : String → String → ℚ) (chrome0 : σ)
    (url u : String) (s1 : σ)
    (h : ch.get_url chrome0 = Except.ok (u, s1)) :
    (crawl ch gb sim chrome0 url).2.url = u := by
  unfold crawl
  dsimp only [initial_crawler]
  rw [h]
  dsimp only
  exact url_crawl_all_states_loop ch gb sim MAX_INITIAL_STATES _

/-- Witness for the amended C9 at a concrete input. -/
theorem c9_home_url_witness :
    (crawl chromeStub id simEq () "requested").2.url = "home" :=
  c9_home_url_from_initial_get_url Unit chromeStub id simEq () "requested"
    "home" () rfl

/-- C6 counterexample: when the very first `chrome.get_url()` call — the
one `crawl` performs *outside* its `try` block — raises the interface
failure, the exception escapes `crawl`. -/
theorem c6_interface_failure_escapes_crawl :
    (crawl chromeGetUrlFails id simEq () "home").1.isOk = false := by decide

/-- C6 amended: provided the initial `chrome.get_url()` read succeeds,
`crawl` returns normally on every browser behaviour: an
`InterfaceFailure` raised anywhere inside `_crawl_all_states` and the
internal `MaxPageReload` signal are both caught before `crawl`'s
boundary. -/
theorem c6_crawl_returns_normally (σ : Type) (ch : InstrumentedChrome σ)
    (gb : String → String) (sim : String → String → ℚ) (chrome0 : σ)
    (url u : String) (s1 : σ)
    (h : ch.get_url chrome0 = Except.ok (u, s1)) :
    (crawl ch gb sim chrome0 url).1 = Except.ok () := by
  unfold crawl
  dsimp only [initial_crawler]
  rw [h]

/-- Witness for the amended C6 at a concrete input. -/
theorem c6_crawl_witness :
    (crawl chromeStub id simEq () "page").1 = Except.ok () :=
  c6_crawl_returns_normally Unit chromeStub id simEq () "page" "home" () rfl

/-- C7: `_dispatch_event` appends exactly one entry per call and its
return value matches it — `SUCCESS`/`true` on a successful browser
dispatch, `FAILED`/`false` on `EventException` or `EventTimeout` — while
any other browser exception propagates out with no entry appended. -/
theorem c7_dispatch_event_outcomes (σ : Type) (ch : InstrumentedChrome σ)
    (st : CrawlerJS σ) (event : Event) :
    (∀ s, ch.dispatch_js_event st.chrome event.selector event.event_type =
        Except.ok s →
      dispatch_event ch st event =
        (Except.ok true,
         {st with chrome := s,
                  event_dispatch_log := st.event_dispatch_log ++
                    [⟨event, DispatchState.SUCCESS⟩]})) ∧
    (∀ err, (err = ChromeDispatchError.eventException ∨
             err = ChromeDispatchError.eventTimeout) →
      ch.dispatch_js_event st.chrome event.selector event.event_type =
        Except.error err →
      dispatch_event ch st event =
        (Except.ok false,
         {st with event_dispatch_log := st.event_dispatch_log ++
            [⟨event, DispatchState.FAILED⟩]})) ∧
    (ch.dispatch_js_event st.chrome event.selector event.event_type =
        Except.error ChromeDispatchError.chromeInterfaceException →
      dispatch_event ch st event =
        (Except.error ChromeInterfaceError.interfaceException, st)) := by
  refine ⟨?_, ?_, ?_⟩
  · intro s h
    unfold dispatch_event
    rw [h]
  · rintro err (rfl | rfl) h <;> (unfold dispatch_event; rw [h])
  · intro h
    unfold dispatch_event
    rw [h]

/-- Witness for C7 at a concrete input: a successful dispatch appends
one `SUCCESS` entry and returns `true`. -/
theorem c7_dispatch_witness :
    dispatch_event chromeStub (initial_crawler ()) ⟨"a", "click"⟩ =
      (Except.ok true,
       {(initial_crawler () : CrawlerJS Unit) with
        chrome := ()
        event_dispatch_log := [⟨⟨"a", "click"⟩, DispatchState.SUCCESS⟩]}) :=
  (c7_dispatch_event_outcomes Unit chromeStub (initial_crawler ())
    ⟨"a", "click"⟩).1 () rfl

/-- Removing the entries with key `k` from a list that contains one
strictly shortens it. -/
theorem filter_ne_length_lt (k : String) (l : List (String × String))
    (h : ∃ p ∈ l, p.1 = k) :
    (l.filter fun q => decide (q.1 ≠ k)).length < l.length := by
  induction l with
  | nil => simp at h
  | cons x xs ih =>
    by_cases hx : x.1 = k
    · simp [List.filter_cons, hx]
      exact Nat.lt_succ_of_le (List.length_filter_le _ _)
    · obtain ⟨p, hp, hpk⟩ := h
      rcases List.mem_cons.mp hp with rfl | hp2
      · exact absurd hpk hx
      · simp [List.filter_cons, hx]
        simpa using ih ⟨p, hp2, hpk⟩

/-- A recency refresh never grows the cache. -/
theorem touch_length_le (c : SynchronizedLRUDict) (k : String) :
    (c.touch k).entries.length ≤ c.entries.length := by
  unfold SynchronizedLRUDict.touch
  split
  · exact le_refl _
  · next q hfind =>
    have hmem := List.mem_of_find?_eq_some hfind
    have hq0 := List.find?_some hfind
    have hqk : q.1 = k := of_decide_eq_true hq0
    have hlt : (c.entries.filter fun r => decide (r.1 ≠ k)).length <
        c.entries.length :=
      filter_ne_length_lt k c.entries ⟨q, hmem, hqk⟩
    simpa using Nat.succ_le_of_lt hlt

/-- A recency refresh keeps the capacity. -/
theorem touch_capacity (c : SynchronizedLRUDict) (k : String) :
    (c.touch k).capacity = c.capacity := by
  unfold SynchronizedLRUDict.touch
  split <;> rfl

/-- An insertion never leaves the cache over capacity. -/
theorem insert_length_le (c : SynchronizedLRUDict) (k v : String) :
    (c.insert k v).entries.length ≤ c.capacity := by
  unfold SynchronizedLRUDict.insert
  simpa [List.length_take] using Nat.min_le_left c.capacity _

/-- `_cached_get_xml_bones` keeps the cache capacity. -/
theorem cached_capacity (gb : String → String) (c : SynchronizedLRUDict)
    (d : String) : (cached_get_xml_bones gb c d).2.1.capacity = c.capacity := by
  unfold cached_get_xml_bones
  split
  · exact touch_capacity c d
  · rfl

/-- `_cached_get_xml_bones` preserves the capacity bound on the cache
size. -/
theorem cached_length_le (gb : String → String) (c : SynchronizedLRUDict)
    (d : String) (h : c.entries.length ≤ c.capacity) :
    (cached_get_xml_bones gb c d).2.1.entries.length ≤ c.capacity := by
  unfold cached_get_xml_bones
  split
  · exact le_trans (touch_length_le c d) h
  · exact insert_length_le c d _

/-- Invariant of any call sequence against the session cache built by
`__init__`: capacity stays 2 and the size never exceeds it. -/
theorem runCache_inv (gb : String → String) (doms : List String) :
    (runCache gb doms).capacity = 2 ∧ (runCache gb doms).entries.length ≤ 2 := by
  suffices h : ∀ (l : List String) (c : SynchronizedLRUDict),
      c.capacity = 2 → c.entries.length ≤ 2 →
      (l.foldl (fun c d => (cached_get_xml_bones gb c d).2.1) c).capacity = 2 ∧
      (l.foldl (fun c d => (cached_get_xml_bones gb c d).2.1) c).entries.length ≤ 2 by
    exact h doms ⟨2, []⟩ rfl (by simp)
  intro l
  induction l with
  | nil => intro c h1 h2; exact ⟨h1, h2⟩
  | cons d rest ih =>
    intro c h1 h2
    simp only [List.foldl_cons]
    apply ih
    · rw [cached_capacity gb c d, h1]
    · have hle : c.entries.length ≤ c.capacity := by rw [h1]; exact h2
      have := cached_length_le gb c d hle
      rw [h1] at this
      exact this

/-- A cache hit returns the cached value without invoking the bones
extraction function (0 invocations). -/
theorem cached_hit (gb : String → String) (c : SynchronizedLRUDict)
    (d v : String) (h : c.lookup d = some v) :
    cached_get_xml_bones gb c d = (v, c.touch d, 0) := by
  unfold cached_get_xml_bones
  rw [h]

/-- After any `_cached_get_xml_bones` call the requested DOM text is
cached with the value just returned (the cache has room for it since
its capacity is at least 1). -/
theorem lookup_after_call (gb : String → String) (c : SynchronizedLRUDict)
    (d : String) (hcap : 1 ≤ c.capacity) :
    (cached_get_xml_bones gb c d).2.1.lookup d =
      some (cached_get_xml_bones gb c d).1 := by
  unfold cached_get_xml_bones
  cases hl : c.lookup d with
  | some v =>
    dsimp only
    unfold SynchronizedLRUDict.lookup at hl
    unfold SynchronizedLRUDict.touch SynchronizedLRUDict.lookup
    cases hf : c.entries.find? (fun p => decide (p.1 = d)) with
    | none => rw [hf] at hl; simp at hl
    | some q =>
      rw [hf] at hl
      simp at hl
      have hq0 := List.find?_some hf
      have hqk : q.1 = d := of_decide_eq_true hq0
      simp [List.find?_cons, hqk, hl]
  | none =>
    dsimp only
    unfold SynchronizedLRUDict.insert SynchronizedLRUDict.lookup
    obtain ⟨m, hm⟩ : ∃ m, c.capacity = m + 1 := ⟨c.capacity - 1, by omega⟩
    rw [hm]
    simp [List.take_succ_cons, List.find?_cons]

/-- C8: after any sequence of `_cached_get_xml_bones` calls the session
cache holds at most 2 entries; a DOM text currently cached is answered
from the cache with 0 invocations of the bones function; and two
consecutive calls with the same DOM text return the same fingerprint,
the second one performing 0 invocations (so the pair performs at most
one). -/
theorem c8_fingerprint_cache (gb : String → String) (doms : List String)
    (dom : String) :
    (runCache gb doms).entries.length ≤ 2 ∧
    (∀ v, (runCache gb doms).lookup dom = some v →
      cached_get_xml_bones gb (runCache gb doms) dom =
        (v, (runCache gb doms).touch dom, 0)) ∧
    ((cached_get_xml_bones gb
        ((cached_get_xml_bones gb (runCache gb doms) dom).2.1) dom).1 =
      (cached_get_xml_bones gb (runCache gb doms) dom).1 ∧
     (cached_get_xml_bones gb
        ((cached_get_xml_bones gb (runCache gb doms) dom).2.1) dom).2.2 = 0) := by
  obtain ⟨hcap, hlen⟩ := runCache_inv gb doms
  refine ⟨hlen, ?_, ?_⟩
  · intro v hv
    exact cached_hit gb _ dom v hv
  · have hcap1 : 1 ≤ (runCache gb doms).capacity := by rw [hcap]; omega
    have hla := lookup_after_call gb (runCache gb doms) dom hcap1
    have h2 := cached_hit gb _ dom _ hla
    rw [h2]
    exact ⟨rfl, rfl⟩

/-- Witness for C8 at a concrete input: after caching `"x"`, a further
request for `"x"` is a hit with 0 extraction calls. -/
theorem c8_cache_witness :
    cached_get_xml_bones id (runCache id ["x"]) "x" =
      ("x", (runCache id ["x"]).touch "x", 0) :=
  (c8_fingerprint_cache id ["x"] "x").2.1 "x" (by decide)
